import Mathlib

/-!
Verification development for the Tightrope workspace dashboard
(`src/pages/workspaces/[id].tsx`) and the analysis engine it consumes.

The client page is embedded shallowly: React state (`workspace`, `loading`,
`error`, `pollingRef`) becomes a `ClientState` record, each `fetch` handler
becomes a pure function from the old state and the network outcome to the new
state, and JavaScript truthiness (`x || d`, `obj?.field`) is modelled
explicitly on `Option` values.  The engine (job orchestrator, registry,
extraction pipeline) is not part of the available sources, so it is modelled
from the specification text where a claim needs it.
-/

/-- JS `a || d` on an optional string: `undefined` and `""` are falsy. -/
def jsOrString (o : Option String) (d : String) : String :=
  match o with
  | some s => if s = "" then d else s
  | none => d

/-- JS `a || d` on an optional number: `undefined` and `0` are falsy. -/
def jsOrNat (o : Option Nat) (d : Nat) : Nat :=
  match o with
  | some n => if n = 0 then d else n
  | none => d

/-- One entry of `files_contributed` as rendered by the contributor modal
(`file_path`, `lines_contributed`, `last_modified`; the float-valued
`ownership_percentage` is display-only and not modelled). -/
structure FileContribution where
  file_path : String
  lines_contributed : Option Nat
  last_modified : Option String
deriving Repr, DecidableEq

/-- A contributor object inside the analysis result payload.  Every field the
page reads through a guard or `||` default is an `Option`. -/
structure Contributor where
  username : String
  email : String
  total_commits : Nat
  lines_added : Option Nat
  lines_deleted : Option Nat
  active_days : Option Nat
  expertise_level : Option String
  bus_factor_risk : Option String
  first_commit_date : Option String
  last_commit_date : Option String
  commit_frequency : Option String
  knowledge_areas : Option (List String)
  contribution_summary : Option String
  files_contributed : Option (List FileContribution)
deriving Repr, DecidableEq

/-- The `codebase_health` object of the result payload. -/
structure CodebaseHealth where
  total_files : Option Nat
  total_commits : Option Nat
  active_contributors : Option Nat
  bus_factor : Option Nat
  hot_spots : Option (List String)
deriving Repr, DecidableEq

/-- The analysis `result` payload consumed by the page. -/
structure ResultPayload where
  project_summary : Option String
  primary_languages : Option (List String)
  contributors : Option (List Contributor)
  codebase_health : Option CodebaseHealth
  recommendations : Option (List String)
deriving Repr, DecidableEq

/-- The `analysis` summary attached to a workspace (interface `WorkspaceData`
in the page: `id`, `status`, optional progress/message/step/dates,
`hasResult`, optional `result`). -/
structure Analysis where
  id : String
  status : String
  progress : Option Nat
  message : Option String
  current_step : Option String
  startedAt : Option String
  completedAt : Option String
  hasResult : Option Bool
  result : Option ResultPayload
deriving Repr, DecidableEq

/-- The workspace record returned by `GET /api/workspaces/:id`. -/
structure WorkspaceData where
  workspace_id : String
  name : String
  github_repository : String
  createdAt : String
  analysis : Option Analysis
deriving Repr, DecidableEq

/-- The React state of `WorkspacePage` that the claims are about:
`workspace`, `loading`, `error`, whether `pollingRef.current` is non-null,
how many `setInterval` timers are currently registered, and the period the
active interval was registered with. -/
structure ClientState where
  workspace : Option WorkspaceData
  loading : Bool
  error : String
  pollingActive : Bool
  activeIntervals : Nat
  intervalPeriodMs : Option Nat
deriving Repr, DecidableEq

/-- Initial hook state: `useState(null)`, `useState(true)`, `useState('')`,
`useRef(null)`. -/
def initialState : ClientState :=
  { workspace := none
    loading := true
    error := ""
    pollingActive := false
    activeIntervals := 0
    intervalPeriodMs := none }

/-- The interval period passed to `window.setInterval` in `pollStatus`. -/
def pollIntervalMs : Nat := 2000

/-- `if (pollingRef.current) { clearInterval(pollingRef.current);
pollingRef.current = null }` — the guarded cleanup used on every path that
ends polling. -/
def clearPolling (s : ClientState) : ClientState :=
  if s.pollingActive then
    { s with pollingActive := false, activeIntervals := s.activeIntervals - 1 }
  else s

/-- The synchronous part of `pollStatus()`: bail out if already polling,
otherwise clear the error, set loading, and register a 2000 ms interval. -/
def pollStatus (s : ClientState) : ClientState :=
  if s.pollingActive then s
  else
    { s with
      error := ""
      loading := true
      pollingActive := true
      activeIntervals := s.activeIntervals + 1
      intervalPeriodMs := some pollIntervalMs }

/-- The body of `GET /api/workspaces/:id/status`'s JSON, as the tick handler
reads it: `res.ok`, `data.error`, `data.status`, `data.analysis`. -/
structure StatusResponse where
  ok : Bool
  error : Option String
  status : Option String
  analysis : Option Analysis
deriving Repr, DecidableEq

/-- Truthiness of `analysis && analysis.result` in the stop condition. -/
def analysisHasResult (resp : StatusResponse) : Bool :=
  match resp.analysis with
  | some a => a.result.isSome
  | none => false

/-- The stop condition of the tick handler:
`data.status === 'completed' || (analysis && analysis.result)`. -/
def stopCondition (resp : StatusResponse) : Bool :=
  resp.status = some "completed" || analysisHasResult resp

/-- `setWorkspace((prev) => { if (!prev) return prev; return { ...prev,
analysis: { ...analysis } } })`. -/
def updateAnalysis (ws : Option WorkspaceData) (a : Analysis) : Option WorkspaceData :=
  match ws with
  | none => none
  | some w => some { w with analysis := some a }

/-- Outcome of the one-shot final `GET /api/workspaces/:id` performed when
polling stops on `status === 'completed'` without a result: the fetch either
throws (caught and logged) or replies with `finalRes.ok` and
`finalData.workspace`. -/
inductive FinalFetchOutcome where
  | thrown
  | reply (ok : Bool) (workspace : Option WorkspaceData)
deriving Repr, DecidableEq

/-- Environment input to one interval tick: either the status fetch throws,
or it yields a `StatusResponse` (with the final-fetch outcome the environment
would give if the handler performs the one-shot final fetch). -/
inductive PollInput where
  | thrown
  | response (resp : StatusResponse) (final : FinalFetchOutcome)
deriving Repr, DecidableEq

/-- Result of one tick: the new client state and whether the handler
performed the one-shot final workspace fetch. -/
structure TickResult where
  state : ClientState
  didFinalFetch : Bool
deriving Repr, DecidableEq

/-- One execution of the `setInterval` callback in `pollStatus`, lines
74–125 of the page. -/
def pollTick (s : ClientState) (input : PollInput) : TickResult :=
  match input with
  | .thrown =>
      -- catch: setError('Polling failed'); setLoading(false); clear interval
      ⟨clearPolling { s with error := "Polling failed", loading := false }, false⟩
  | .response resp final =>
      if resp.ok then
        -- update local workspace state with the analysis summary if present
        let s1 :=
          match resp.analysis with
          | some a => { s with workspace := updateAnalysis s.workspace a }
          | none => s
        if stopCondition resp then
          let s2 := clearPolling s1
          if analysisHasResult resp then
            ⟨{ s2 with loading := false }, false⟩
          else
            -- fetch final workspace once
            let s3 :=
              match final with
              | .thrown => s2
              | .reply ok ws => if ok then { s2 with workspace := ws } else s2
            ⟨{ s3 with loading := false }, true⟩
        else
          ⟨s1, false⟩
      else
        -- setError(data?.error || 'Failed to fetch status'); clear; setLoading(false)
        ⟨clearPolling
          { s with error := jsOrString resp.error "Failed to fetch status", loading := false },
        false⟩

/-- Line 52: `!data.workspace.analysis || (data.workspace.analysis &&
!data.workspace.analysis.hasResult)` — start polling when no analysis is
stored or its `hasResult` flag is falsy. -/
def shouldStartPolling (w : WorkspaceData) : Bool :=
  match w.analysis with
  | none => true
  | some a => !(a.hasResult.getD false)

/-- Outcome of the initial `GET /api/workspaces/:id`: the fetch throws, or
replies non-ok with an optional `error` string, or replies ok with
`data.workspace`. -/
inductive FetchOutcome where
  | thrown
  | errReply (error : Option String)
  | okReply (workspace : WorkspaceData)
deriving Repr, DecidableEq

/-- `fetchWorkspace` in the initial-load effect, lines 40–64.  On success it
stores the workspace and, when the stored analysis is absent or lacks a
result, starts polling; the `finally` block clears `loading` last. -/
def fetchWorkspace (s : ClientState) (o : FetchOutcome) : ClientState :=
  match o with
  | .thrown => { s with error := "Failed to load workspace", loading := false }
  | .errReply e =>
      { s with error := jsOrString e "Failed to load workspace", loading := false }
  | .okReply w =>
      let s1 := { s with workspace := some w }
      let s2 := if shouldStartPolling w then pollStatus s1 else s1
      { s2 with loading := false }

/-- The unmount cleanup effect, lines 129–136. -/
def unmountCleanup (s : ClientState) : ClientState :=
  clearPolling s

/-- The events that drive the page's state: the initial load effect, a call
to `pollStatus`, an interval tick (which can only fire while the interval is
registered), and unmount. -/
inductive ClientEvent where
  | load (o : FetchOutcome)
  | startPoll
  | tick (i : PollInput)
  | unmount

/-- Applying one event to the client state.  A tick fires only while the
interval is registered. -/
def applyEvent (s : ClientState) (e : ClientEvent) : ClientState :=
  match e with
  | .load o => fetchWorkspace s o
  | .startPoll => pollStatus s
  | .tick i => if s.pollingActive then (pollTick s i).state else s
  | .unmount => unmountCleanup s

/-- `pollingRef.current` is non-null exactly while one interval is
registered, and no second interval ever exists. -/
def pollingInvariant (s : ClientState) : Prop :=
  s.activeIntervals = (if s.pollingActive then 1 else 0)

/-- `const result = workspace?.analysis?.result` (line 149). -/
def pageResult (s : ClientState) : Option ResultPayload :=
  s.workspace.bind fun w => w.analysis.bind fun a => a.result

/-- What the main area of the page shows: the loading spinner, the "No
workspace found." message, the result section, or the "Analysis is in
progress" placeholder (lines 138–147, 186–187, 254, 396–400). -/
inductive MainView where
  | loadingSpinner
  | noWorkspace
  | resultsView (r : ResultPayload)
  | inProgress
deriving Repr, DecidableEq

/-- The page's main render, as a function of the client state. -/
def renderMain (s : ClientState) : MainView :=
  if s.loading then .loadingSpinner
  else
    match s.workspace with
    | none => .noWorkspace
    | some w =>
        match w.analysis.bind (fun a => a.result) with
        | some r => .resultsView r
        | none => .inProgress

/-- Quick-stats card `result.codebase_health?.total_files || 0`. -/
def displayTotalFiles (r : ResultPayload) : Nat :=
  jsOrNat (r.codebase_health.bind (fun h => h.total_files)) 0

/-- Quick-stats card `result.codebase_health?.total_commits || 0`. -/
def displayTotalCommits (r : ResultPayload) : Nat :=
  jsOrNat (r.codebase_health.bind (fun h => h.total_commits)) 0

/-- Quick-stats card `result.codebase_health?.active_contributors || 0`. -/
def displayActiveContributors (r : ResultPayload) : Nat :=
  jsOrNat (r.codebase_health.bind (fun h => h.active_contributors)) 0

/-- Quick-stats card `result.codebase_health?.bus_factor || '—'`: a truthy
number renders as itself, otherwise the em-dash placeholder. -/
def displayBusFactor (r : ResultPayload) : String :=
  match r.codebase_health.bind (fun h => h.bus_factor) with
  | some n => if n = 0 then "—" else toString n
  | none => "—"

/-- Contributor card `{contributor.expertise_level || 'unknown'}`. -/
def displayExpertise (c : Contributor) : String :=
  jsOrString c.expertise_level "unknown"

/-- Contributor card `{contributor.files_contributed?.length || 0}`. -/
def displayFilesCount (c : Contributor) : Nat :=
  match c.files_contributed with
  | some l => l.length
  | none => 0

/-- Contributor card risk badge: rendered only when `bus_factor_risk` is
truthy (line 336), showing the raw string. -/
def displayRiskBadge (c : Contributor) : Option String :=
  match c.bus_factor_risk with
  | some s => if s = "" then none else some s
  | none => none

/-- Modal expertise text: `(selectedContributor.expertise_level ||
'Unknown').charAt(0).toUpperCase() + (…).slice(1)`. -/
def displayModalExpertise (c : Contributor) : String :=
  (jsOrString c.expertise_level "Unknown").capitalize

/-- Modal risk text: `(selectedContributor.bus_factor_risk ||
'Unknown').charAt(0).toUpperCase() + (…).slice(1)`. -/
def displayModalRisk (c : Contributor) : String :=
  (jsOrString c.bus_factor_risk "Unknown").capitalize

/-- Hot-spot list as rendered: section shown only when
`hot_spots && hot_spots.length > 0`, then `hot_spots.slice(0, 5)`. -/
def displayedHotSpots (r : ResultPayload) : List String :=
  match r.codebase_health.bind (fun h => h.hot_spots) with
  | some l => if l.length > 0 then l.take 5 else []
  | none => []

/-- Recommendation list as rendered: section shown only when
`recommendations && recommendations.length > 0`, then `slice(0, 5)`. -/
def displayedRecommendations (r : ResultPayload) : List String :=
  match r.recommendations with
  | some l => if l.length > 0 then l.take 5 else []
  | none => []

/-- Modal file list as rendered: section shown only when
`files_contributed && files_contributed.length > 0`, then `slice(0, 10)`. -/
def displayedFiles (c : Contributor) : List FileContribution :=
  match c.files_contributed with
  | some l => if l.length > 0 then l.take 10 else []
  | none => []

/-- The `+N more files` note: shown with `N = files_contributed.length - 10`
exactly when `files_contributed.length > 10` (lines 544–548). -/
def moreFilesNote (c : Contributor) : Option Nat :=
  match c.files_contributed with
  | some l => if l.length > 0 then (if l.length > 10 then some (l.length - 10) else none)
              else none
  | none => none

/-- Modelled from the spec: the AnalysisJob status values of §3,
`queued → processing → (completed | failed)` (the engine sources are not in
the repository excerpt; only the consuming UI is). -/
inductive JobStatus where
  | queued
  | processing
  | completed
  | failed
deriving Repr, DecidableEq, BEq

/-- Modelled from the spec: the `current_step` values of §4.6. -/
inductive PipelineStep where
  | extracting
  | aggregating
  | profiling
  | analyzing_risk
  | synthesizing
deriving Repr, DecidableEq

/-- Modelled from the spec: the fixed progress weight each step adds
(20/20/20/25/15, §4.6). -/
def stepWeight : PipelineStep → Nat
  | .extracting => 20
  | .aggregating => 20
  | .profiling => 20
  | .analyzing_risk => 25
  | .synthesizing => 15

/-- Modelled from the spec: the successor of each pipeline step (§4.6: no
step may be skipped or reordered). -/
def nextStep : PipelineStep → Option PipelineStep
  | .extracting => some .aggregating
  | .aggregating => some .profiling
  | .profiling => some .analyzing_risk
  | .analyzing_risk => some .synthesizing
  | .synthesizing => none

/-- Modelled from the spec: an AnalysisJob record (§3) — identifier, owning
workspace, status, progress, current step, message, timestamps and the
optional result attached on completion. -/
structure AnalysisJob where
  jobId : Nat
  workspaceId : Nat
  status : JobStatus
  progress : Nat
  current_step : Option PipelineStep
  message : Option String
  startedAt : Option Nat
  completedAt : Option Nat
  result : Option ResultPayload
deriving Repr, DecidableEq

/-- Modelled from the spec: a freshly submitted job — initial status
`queued`, no progress, no step, no result (§6). -/
def mkJob (ws jobId : Nat) : AnalysisJob :=
  { jobId := jobId
    workspaceId := ws
    status := .queued
    progress := 0
    current_step := none
    message := none
    startedAt := none
    completedAt := none
    result := none }

/-- Modelled from the spec: the orchestrator's transitions on one job
(§4.6): start moves `queued` to `processing` at the first step; `advance`
moves to the next step adding the finished step's weight; `fail` records a
category-tagged message and attaches no result; `complete` attaches the
AnalysisResult and `completedAt`. -/
inductive JobStep : AnalysisJob → AnalysisJob → Prop where
  | start (j : AnalysisJob) (t : Nat) (h : j.status = .queued) :
      JobStep j { j with status := .processing, current_step := some .extracting,
                         startedAt := some t }
  | advance (j : AnalysisJob) (s s' : PipelineStep)
      (h : j.status = .processing) (hs : j.current_step = some s)
      (hn : nextStep s = some s') :
      JobStep j { j with current_step := some s', progress := j.progress + stepWeight s }
  | fail (j : AnalysisJob) (msg : String) (h : j.status = .processing) :
      JobStep j { j with status := .failed, message := some msg }
  | complete (j : AnalysisJob) (res : ResultPayload) (t : Nat)
      (h : j.status = .processing) :
      JobStep j { j with status := .completed, result := some res,
                         progress := 100, completedAt := some t }

/-- Modelled from the spec: a job state reachable from submission. -/
def JobReachable (ws jobId : Nat) (j : AnalysisJob) : Prop :=
  Relation.ReflTransGen JobStep (mkJob ws jobId) j

/-- Modelled from the spec: the status-polling payload a poll of a job
returns (§6: `{status, progress, message, current_step, startedAt,
completedAt, result?}`). -/
structure StatusPayload where
  status : JobStatus
  progress : Nat
  message : Option String
  current_step : Option PipelineStep
  startedAt : Option Nat
  completedAt : Option Nat
  result : Option ResultPayload
deriving Repr, DecidableEq

/-- Modelled from the spec: polling mirrors the job record's fields. -/
def pollPayload (j : AnalysisJob) : StatusPayload :=
  { status := j.status
    progress := j.progress
    message := j.message
    current_step := j.current_step
    startedAt := j.startedAt
    completedAt := j.completedAt
    result := j.result }

/-- Modelled from the spec: the job registry keyed by identifier (§9), with
a counter producing fresh identifiers. -/
structure Registry where
  jobs : List AnalysisJob
  nextId : Nat
deriving Repr, DecidableEq

/-- A job is non-terminal while `queued` or `processing`. -/
def isActiveJob (j : AnalysisJob) : Bool :=
  j.status == .queued || j.status == .processing

/-- Whether a workspace already has a non-terminal job in the registry. -/
def hasActiveJob (reg : Registry) (ws : Nat) : Bool :=
  reg.jobs.any fun j => j.workspaceId == ws && isActiveJob j

/-- Modelled from the spec: submission failure when a non-terminal job
already exists for the workspace (§4.6). -/
inductive SubmitError where
  | activeJobExists
deriving Repr, DecidableEq

/-- Modelled from the spec: job submission (§6) — rejected while a
non-terminal job exists for the same workspace, otherwise a fresh `queued`
job is registered and its identifier returned. -/
def submit (reg : Registry) (ws : Nat) : Except SubmitError (Registry × Nat) :=
  if hasActiveJob reg ws then .error .activeJobExists
  else .ok ({ jobs := mkJob ws reg.nextId :: reg.jobs, nextId := reg.nextId + 1 }, reg.nextId)

/-- At most one non-terminal job per workspace (§3's invariant). -/
def atMostOneActive (reg : Registry) : Prop :=
  ∀ ws : Nat, (reg.jobs.countP fun j => j.workspaceId == ws && isActiveJob j) ≤ 1

/-- Modelled from the spec: one per-file change inside a CommitDiff (§3). -/
structure FileChange where
  path : String
  linesAdded : Nat
  linesRemoved : Nat
  renameFrom : Option String
deriving Repr, DecidableEq

/-- Modelled from the spec: a CommitDiff — commit id, author identity,
timestamp and per-file changes (§3). -/
structure CommitDiff where
  commitId : String
  authorName : String
  authorEmail : String
  timestamp : Nat
  changes : List FileChange
deriving Repr, DecidableEq

/-- Modelled from the spec: the repository handed to the History Extractor —
a location that is either reachable (with its commit history) or not
(§4.1). -/
structure RepoSource where
  reachable : Bool
  commits : List CommitDiff
deriving Repr, DecidableEq

/-- Modelled from the spec: the Extractor's error taxonomy (§4.1, §7) —
`ExtractionError` for an unreachable/unauthorized location, and the distinct
`EmptyHistoryError` for an empty history. -/
inductive ExtractError where
  | extractionError
  | emptyHistoryError
deriving Repr, DecidableEq

/-- Modelled from the spec: the History Extractor (§4.1) — fails with
`ExtractionError` when the location is unreachable and with
`EmptyHistoryError` when the history is empty, otherwise yields the ordered
CommitDiff sequence. -/
def extractHistory (repo : RepoSource) : Except ExtractError (List CommitDiff) :=
  if !repo.reachable then .error .extractionError
  else if repo.commits.isEmpty then .error .emptyHistoryError
  else .ok repo.commits

/-- Modelled from the spec: the health snapshot of the zero-valued completed
result for an empty history (§4.1, §8): no files, no commits, no active
contributors, sentinel (absent) bus factor, no hot spots. -/
def emptyHistoryHealth : CodebaseHealth :=
  { total_files := some 0
    total_commits := some 0
    active_contributors := some 0
    bus_factor := none
    hot_spots := some [] }

/-- Modelled from the spec: the completed result the orchestrator
short-circuits to on `EmptyHistoryError` — zero-valued health metrics and an
empty contributor list. -/
def emptyHistoryResult : ResultPayload :=
  { project_summary := none
    primary_languages := some []
    contributors := some []
    codebase_health := some emptyHistoryHealth
    recommendations := some [] }

/-- Modelled from the spec: a finished job is either completed with a result
or failed with a category-tagged message (§4.6). -/
inductive JobOutcome where
  | completedJob (r : ResultPayload)
  | failedJob (category : String)
deriving Repr, DecidableEq

/-- Modelled from the spec: the orchestrator's run of one job (§4.1, §4.6,
§7), abstracted over the downstream pipeline (Aggregator → Profiler → Risk
Analyzer → Synthesizer): an unreachable location fails the job with the
`ExtractionError` category; an empty history short-circuits to a completed
job with the zero-valued result instead of failing; otherwise the pipeline's
result completes the job. -/
def runJob (pipeline : List CommitDiff → ResultPayload) (repo : RepoSource) : JobOutcome :=
  match extractHistory repo with
  | .error .extractionError => .failedJob "ExtractionError"
  | .error .emptyHistoryError => .completedJob emptyHistoryResult
  | .ok commits => .completedJob (pipeline commits)

/-! ### Concrete fixtures used by witnesses and counterexamples -/

/-- A sample health snapshot with six hot spots. -/
def sampleHealth : CodebaseHealth :=
  { total_files := some 42
    total_commits := some 120
    active_contributors := some 3
    bus_factor := some 1
    hot_spots := some ["a.ts", "b.ts", "c.ts", "d.ts", "e.ts", "f.ts"] }

/-- A sample analysis result with six recommendations. -/
def sampleResult : ResultPayload :=
  { project_summary := some "demo project"
    primary_languages := some ["TypeScript"]
    contributors := some []
    codebase_health := some sampleHealth
    recommendations := some ["r1", "r2", "r3", "r4", "r5", "r6"] }

/-- An analysis summary that already carries a result while its status
string still reads `processing` (the torn read of §5). -/
def tornAnalysis : Analysis :=
  { id := "job-1"
    status := "processing"
    progress := some 95
    message := some "Synthesizing"
    current_step := some "synthesizing"
    startedAt := some "t0"
    completedAt := none
    hasResult := some true
    result := some sampleResult }

/-- A sample stored workspace without analysis. -/
def sampleWorkspace : WorkspaceData :=
  { workspace_id := "w1"
    name := "demo"
    github_repository := "https://github.com/octo/demo"
    createdAt := "2024-01-01T00:00:00Z"
    analysis := none }

/-- A stored analysis that is still in flight: status present, no result. -/
def pendingAnalysis : Analysis :=
  { id := "job-1"
    status := "processing"
    progress := some 40
    message := some "Profiling"
    current_step := some "profiling"
    startedAt := some "t0"
    completedAt := none
    hasResult := some false
    result := none }

/-- A stored workspace whose analysis is still in flight. -/
def pendingWorkspace : WorkspaceData :=
  { sampleWorkspace with analysis := some pendingAnalysis }

/-- A client state in the middle of polling. -/
def pollingState : ClientState :=
  { workspace := some sampleWorkspace
    loading := true
    error := ""
    pollingActive := true
    activeIntervals := 1
    intervalPeriodMs := some pollIntervalMs }

/-- A status response whose analysis carries a result while the top-level
status still reads `processing`. -/
def resultStatusResponse : StatusResponse :=
  { ok := true, error := none, status := some "processing", analysis := some tornAnalysis }

/-- The analysis summary of a failed job: failure category and message, no
result (§7). -/
def failedAnalysis : Analysis :=
  { id := "job-2"
    status := "failed"
    progress := some 20
    message := some "ExtractionError: repository unreachable"
    current_step := some "extracting"
    startedAt := some "t0"
    completedAt := none
    hasResult := some false
    result := none }

/-- The status-poll response for a failed job. -/
def failedStatusResponse : StatusResponse :=
  { ok := true, error := none, status := some "failed", analysis := some failedAnalysis }

/-- A client state polling a job that is about to report failure. -/
def failedPollingState : ClientState :=
  { workspace := some pendingWorkspace
    loading := false
    error := ""
    pollingActive := true
    activeIntervals := 1
    intervalPeriodMs := some pollIntervalMs }

/-- A result payload with every optional field missing. -/
def bareResult : ResultPayload :=
  { project_summary := none
    primary_languages := none
    contributors := none
    codebase_health := none
    recommendations := none }

/-- A contributor with every optional field missing. -/
def bareContributor : Contributor :=
  { username := "alice"
    email := ""
    total_commits := 3
    lines_added := none
    lines_deleted := none
    active_days := none
    expertise_level := none
    bus_factor_risk := none
    first_commit_date := none
    last_commit_date := none
    commit_frequency := none
    knowledge_areas := none
    contribution_summary := none
    files_contributed := none }

/-- A numbered file entry. -/
def mkFile (i : Nat) : FileContribution :=
  { file_path := String.append "file" (toString i)
    lines_contributed := some (10 + i)
    last_modified := none }

/-- A contributor with twelve contributed files. -/
def busyContributor : Contributor :=
  { bareContributor with files_contributed := some ((List.range 12).map mkFile) }

/-- A registry holding one `processing` job for workspace 7. -/
def processingJob : AnalysisJob :=
  { mkJob 7 0 with status := .processing, current_step := some .profiling,
                   startedAt := some 1, progress := 40 }

/-- Sample registry with one active job. -/
def regSample : Registry :=
  { jobs := [processingJob], nextId := 1 }

/-! ### Claims -/

/-- Projections of the guarded interval cleanup. -/
theorem clearPolling_spec (s : ClientState) :
    (clearPolling s).pollingActive = false ∧
    (clearPolling s).workspace = s.workspace ∧
    (clearPolling s).loading = s.loading ∧
    (clearPolling s).error = s.error := by
  by_cases hp : s.pollingActive <;> simp [clearPolling, hp]

/-- C1: the client treats a non-null `result`, not `status` alone, as
authoritative for completion: any ok status-poll response whose analysis
carries a result stops polling and makes the page render that result
(whatever the `status` string says), and the initial load starts polling
whenever the stored analysis is absent or lacks a result, even though a
status string is present. -/
theorem c1_result_presence_authoritative :
    (∀ (s : ClientState) (resp : StatusResponse) (f : FinalFetchOutcome)
       (a : Analysis) (r : ResultPayload),
        resp.ok = true → resp.analysis = some a → a.result = some r →
        (pollTick s (.response resp f)).state.pollingActive = false ∧
        (∀ w : WorkspaceData, s.workspace = some w →
          pageResult (pollTick s (.response resp f)).state = some r ∧
          renderMain (pollTick s (.response resp f)).state = .resultsView r)) ∧
    (∀ (s : ClientState) (w : WorkspaceData),
        (w.analysis = none ∨ ∃ a : Analysis, w.analysis = some a ∧ a.hasResult ≠ some true) →
        (fetchWorkspace s (.okReply w)).pollingActive = true) := by
  constructor
  · intro s resp f a r hok hana hres
    have hhr : analysisHasResult resp = true := by
      simp [analysisHasResult, hana, hres]
    have hstop : stopCondition resp = true := by
      simp [stopCondition, hhr]
    constructor
    · by_cases hp : s.pollingActive <;>
        simp [pollTick, hok, hana, hstop, hhr, clearPolling, hp]
    · intro w hw
      constructor
      · by_cases hp : s.pollingActive <;>
          simp [pollTick, hok, hana, hstop, hhr, clearPolling, hp, pageResult,
                updateAnalysis, hw, hres]
      · by_cases hp : s.pollingActive <;>
          simp [pollTick, hok, hana, hstop, hhr, clearPolling, hp, renderMain,
                updateAnalysis, hw, hres]
  · intro s w hw
    have hstart : shouldStartPolling w = true := by
      rcases hw with h | ⟨a, ha, hr⟩
      · simp [shouldStartPolling, h]
      · cases hb : a.hasResult with
        | none => simp [shouldStartPolling, ha, hb]
        | some b =>
            cases b with
            | true => exact absurd hb hr
            | false => simp [shouldStartPolling, ha, hb]
    by_cases hp : s.pollingActive
    · simp [fetchWorkspace, hstart, pollStatus, hp]
    · simp [fetchWorkspace, hstart, pollStatus, hp]

/-- Witness for C1 at concrete inputs: a response whose `status` still reads
`processing` but whose analysis carries `sampleResult` stops polling and
renders the result, and loading `pendingWorkspace` (stored status string
`processing`, no result) starts polling. -/
theorem c1_witness :
    (pollTick pollingState (.response resultStatusResponse .thrown)).state.pollingActive = false ∧
    pageResult (pollTick pollingState (.response resultStatusResponse .thrown)).state
      = some sampleResult ∧
    renderMain (pollTick pollingState (.response resultStatusResponse .thrown)).state
      = .resultsView sampleResult ∧
    (fetchWorkspace initialState (.okReply pendingWorkspace)).pollingActive = true := by
  obtain ⟨h1, h2⟩ := c1_result_presence_authoritative
  obtain ⟨hp, hr⟩ := h1 pollingState resultStatusResponse .thrown tornAnalysis sampleResult
    rfl rfl rfl
  obtain ⟨hpr, hrm⟩ := hr sampleWorkspace rfl
  exact ⟨hp, hpr, hrm, h2 initialState pendingWorkspace
    (Or.inr ⟨pendingAnalysis, rfl, by decide⟩)⟩

/-- C2: `pollStatus` registers its interval with a fixed 2000 ms period;
for an ok response received while polling, the interval is cleared exactly
when the response reports `status === 'completed'` or carries a non-null
result; and the one-shot final workspace fetch happens exactly when the stop
was triggered by the status string alone, without a result. -/
theorem c2_poll_interval_and_stop :
    pollIntervalMs = 2000 ∧
    (∀ s : ClientState, s.pollingActive = false →
        (pollStatus s).intervalPeriodMs = some 2000 ∧ (pollStatus s).pollingActive = true) ∧
    (∀ (s : ClientState) (resp : StatusResponse) (f : FinalFetchOutcome),
        s.pollingActive = true → resp.ok = true →
        (((pollTick s (.response resp f)).state.pollingActive = false) ↔
          (resp.status = some "completed" ∨ analysisHasResult resp = true)) ∧
        (((pollTick s (.response resp f)).didFinalFetch = true) ↔
          (resp.status = some "completed" ∧ analysisHasResult resp = false))) := by
  refine ⟨rfl, ?_, ?_⟩
  · intro s hp
    simp [pollStatus, hp, pollIntervalMs]
  · intro s resp f hp hok
    have key : (pollTick s (.response resp f)).state.pollingActive = !(stopCondition resp) ∧
        (pollTick s (.response resp f)).didFinalFetch
          = (stopCondition resp && !(analysisHasResult resp)) := by
      cases hstop : stopCondition resp with
      | false =>
          cases hana : resp.analysis <;>
            simp [pollTick, hok, hana, hstop, hp]
      | true =>
          cases hhr : analysisHasResult resp with
          | true =>
              cases hana : resp.analysis with
              | none => simp [analysisHasResult, hana] at hhr
              | some a =>
                  simp [pollTick, hok, hana, hstop, hhr, clearPolling, hp]
          | false =>
              cases hana : resp.analysis with
              | none =>
                  cases f with
                  | thrown => simp [pollTick, hok, hana, hstop, hhr, clearPolling, hp]
                  | reply fok fw =>
                      cases fok <;>
                        simp [pollTick, hok, hana, hstop, hhr, clearPolling, hp]
              | some a =>
                  cases f with
                  | thrown => simp [pollTick, hok, hana, hstop, hhr, clearPolling, hp]
                  | reply fok fw =>
                      cases fok <;>
                        simp [pollTick, hok, hana, hstop, hhr, clearPolling, hp]
    obtain ⟨k1, k2⟩ := key
    constructor
    · rw [k1]
      simp [stopCondition]
      tauto
    · rw [k2]
      cases hhr : analysisHasResult resp <;> simp [stopCondition, hhr]

/-- Witness for C2 at concrete inputs: starting to poll from the initial
state registers a 2000 ms interval, and the torn-read response (status
`processing`, result attached) stops polling without the final fetch. -/
theorem c2_witness :
    pollIntervalMs = 2000 ∧
    (pollStatus initialState).intervalPeriodMs = some 2000 ∧
    ((pollTick pollingState (.response resultStatusResponse .thrown)).state.pollingActive = false ↔
      (resultStatusResponse.status = some "completed" ∨
        analysisHasResult resultStatusResponse = true)) := by
  obtain ⟨h0, h1, h2⟩ := c2_poll_interval_and_stop
  exact ⟨h0, (h1 initialState rfl).1,
    (h2 pollingState resultStatusResponse .thrown rfl rfl).1⟩

/-- C3: evaluation of the tick handler at a failed job's poll response
(`status: 'failed'`, failure message, no result).  Neither stop condition
holds (`data.status !== 'completed'`, no `analysis.result`), so the interval
keeps running and the page keeps showing the "Analysis is in progress"
placeholder — the failure never becomes a terminal error state. -/
theorem c3_failed_job_keeps_polling :
    (pollTick failedPollingState (.response failedStatusResponse .thrown)).state.pollingActive
      = true ∧
    (pollTick failedPollingState (.response failedStatusResponse .thrown)).state.activeIntervals
      = 1 ∧
    (pollTick failedPollingState (.response failedStatusResponse .thrown)).state.error = "" ∧
    renderMain (pollTick failedPollingState (.response failedStatusResponse .thrown)).state
      = .inProgress ∧
    stopCondition failedStatusResponse = false := by
  refine ⟨rfl, rfl, rfl, ?_, rfl⟩
  rfl

/-- C9: on a non-ok status-poll response the client clears the interval,
sets the server-provided `error` string (or the fixed fallback), performs no
final fetch, and leaves the loaded workspace untouched; on a thrown polling
error it clears the interval, sets the fixed 'Polling failed' message, and
likewise leaves the workspace untouched. -/
theorem c9_error_paths (s : ClientState) (resp : StatusResponse)
    (f : FinalFetchOutcome) (hok : resp.ok = false) :
    (pollTick s (.response resp f)).state.pollingActive = false ∧
    (pollTick s (.response resp f)).state.workspace = s.workspace ∧
    (pollTick s (.response resp f)).state.error
      = jsOrString resp.error "Failed to fetch status" ∧
    (pollTick s (.response resp f)).didFinalFetch = false ∧
    (pollTick s .thrown).state.pollingActive = false ∧
    (pollTick s .thrown).state.workspace = s.workspace ∧
    (pollTick s .thrown).state.error = "Polling failed" := by
  by_cases hp : s.pollingActive <;>
    simp [pollTick, hok, clearPolling, hp]

/-- Witness for C9: a concrete non-ok response with a server `error` string
received mid-polling. -/
theorem c9_witness :
    (pollTick pollingState
      (.response { ok := false, error := some "NotFoundError", status := none,
                   analysis := none } .thrown)).state.pollingActive = false ∧
    (pollTick pollingState
      (.response { ok := false, error := some "NotFoundError", status := none,
                   analysis := none } .thrown)).state.workspace
      = pollingState.workspace ∧
    (pollTick pollingState
      (.response { ok := false, error := some "NotFoundError", status := none,
                   analysis := none } .thrown)).state.error
      = jsOrString (some "NotFoundError") "Failed to fetch status" ∧
    (pollTick pollingState
      (.response { ok := false, error := some "NotFoundError", status := none,
                   analysis := none } .thrown)).didFinalFetch = false ∧
    (pollTick pollingState .thrown).state.pollingActive = false ∧
    (pollTick pollingState .thrown).state.workspace = pollingState.workspace ∧
    (pollTick pollingState .thrown).state.error = "Polling failed" :=
  c9_error_paths pollingState
    { ok := false, error := some "NotFoundError", status := none, analysis := none }
    .thrown rfl

/-- C8: at most one polling interval is ever active.  The invariant
"`pollingRef.current` is non-null exactly while one interval is registered"
holds initially and is preserved by every event (initial load, a
`pollStatus` call, any interval tick, unmount); a `pollStatus` call while
already polling is a no-op; and every path that ends polling leaves the ref
null with zero registered intervals. -/
theorem c8_single_interval :
    pollingInvariant initialState ∧
    (∀ (s : ClientState) (e : ClientEvent),
        pollingInvariant s → pollingInvariant (applyEvent s e)) ∧
    (∀ s : ClientState, s.pollingActive = true → pollStatus s = s) ∧
    (∀ s : ClientState, pollingInvariant s →
        (unmountCleanup s).pollingActive = false ∧ (unmountCleanup s).activeIntervals = 0) ∧
    (∀ s : ClientState, pollingInvariant s →
        (s.pollingActive = false → s.activeIntervals = 0)) := by
  have hclear : ∀ s : ClientState, pollingInvariant s →
      (clearPolling s).pollingActive = false ∧ (clearPolling s).activeIntervals = 0 := by
    intro s hs
    cases hp : s.pollingActive with
    | false =>
        have : s.activeIntervals = 0 := by simpa [pollingInvariant, hp] using hs
        simp [clearPolling, hp, this]
    | true =>
        have : s.activeIntervals = 1 := by simpa [pollingInvariant, hp] using hs
        simp [clearPolling, hp, this]
  have hclearInv : ∀ s : ClientState, pollingInvariant s →
      pollingInvariant (clearPolling s) := by
    intro s hs
    obtain ⟨h1, h2⟩ := hclear s hs
    simp [pollingInvariant, h1, h2]
  have hpoll : ∀ s : ClientState, pollingInvariant s →
      pollingInvariant (pollStatus s) := by
    intro s hs
    cases hp : s.pollingActive with
    | true => simpa [pollStatus, hp] using hs
    | false =>
        have : s.activeIntervals = 0 := by simpa [pollingInvariant, hp] using hs
        simp [pollStatus, hp, pollingInvariant, this]
  have htick : ∀ (s : ClientState) (i : PollInput), pollingInvariant s →
      pollingInvariant (pollTick s i).state := by
    intro s i hs
    cases i with
    | thrown =>
        apply hclearInv
        simpa [pollingInvariant] using hs
    | response resp final =>
        cases hok : resp.ok with
        | false =>
            have hs' := hclearInv
              { s with error := jsOrString resp.error "Failed to fetch status",
                       loading := false }
              (by simpa [pollingInvariant] using hs)
            simpa [pollTick, hok] using hs'
        | true =>
            cases hana : resp.analysis with
            | none =>
                cases hstop : stopCondition resp with
                | false => simpa [pollTick, hok, hana, hstop, pollingInvariant] using hs
                | true =>
                    have hhr : analysisHasResult resp = false := by
                      simp [analysisHasResult, hana]
                    have hs1 : pollingInvariant (clearPolling s) := hclearInv s hs
                    cases final with
                    | thrown =>
                        simpa [pollTick, hok, hana, hstop, hhr, pollingInvariant]
                          using hs1
                    | reply fok fw =>
                        cases fok <;>
                          simpa [pollTick, hok, hana, hstop, hhr, pollingInvariant]
                            using hs1
            | some a =>
                have hsa : pollingInvariant
                    { s with workspace := updateAnalysis s.workspace a } := by
                  simpa [pollingInvariant] using hs
                cases hstop : stopCondition resp with
                | false => simpa [pollTick, hok, hana, hstop, pollingInvariant] using hs
                | true =>
                    have hs1 := hclearInv _ hsa
                    cases hhr : analysisHasResult resp with
                    | true =>
                        simpa [pollTick, hok, hana, hstop, hhr, pollingInvariant]
                          using hs1
                    | false =>
                        cases final with
                        | thrown =>
                            simpa [pollTick, hok, hana, hstop, hhr, pollingInvariant]
                              using hs1
                        | reply fok fw =>
                            cases fok <;>
                              simpa [pollTick, hok, hana, hstop, hhr, pollingInvariant]
                                using hs1
  refine ⟨by simp [pollingInvariant, initialState], ?_, ?_, ?_, ?_⟩
  · intro s e hs
    cases e with
    | startPoll => exact hpoll s hs
    | unmount => exact hclearInv s hs
    | tick i =>
        cases hp : s.pollingActive with
        | false => simpa [applyEvent, hp] using hs
        | true => simpa [applyEvent, hp] using htick s i hs
    | load o =>
        cases o with
        | thrown => simpa [applyEvent, fetchWorkspace, pollingInvariant] using hs
        | errReply e => simpa [applyEvent, fetchWorkspace, pollingInvariant] using hs
        | okReply w =>
            have hs1 : pollingInvariant { s with workspace := some w } := by
              simpa [pollingInvariant] using hs
            cases hstart : shouldStartPolling w with
            | false => simpa [applyEvent, fetchWorkspace, hstart, pollingInvariant] using hs1
            | true =>
                have := hpoll _ hs1
                simpa [applyEvent, fetchWorkspace, hstart, pollingInvariant] using this
  · intro s hp
    simp [pollStatus, hp]
  · intro s hs
    simpa [unmountCleanup] using hclear s hs
  · intro s hs hp
    simpa [pollingInvariant, hp] using hs

/-- Witness for C8 at concrete states: the invariant holds initially and
after starting to poll, a second `pollStatus` call on the polling state is a
no-op, and unmounting the polling state clears the interval. -/
theorem c8_witness :
    pollingInvariant initialState ∧
    pollingInvariant (applyEvent initialState .startPoll) ∧
    pollStatus pollingState = pollingState ∧
    (unmountCleanup pollingState).pollingActive = false ∧
    (unmountCleanup pollingState).activeIntervals = 0 := by
  obtain ⟨h0, h1, h2, h3, _⟩ := c8_single_interval
  refine ⟨h0, h1 initialState .startPoll h0, h2 pollingState rfl, ?_, ?_⟩
  · exact (h3 pollingState rfl).1
  · exact (h3 pollingState rfl).2

/-- C7: rendering the result is total over partially populated payloads —
for any result whose optional `codebase_health` is missing and any
contributor whose optional expertise/risk/files fields are missing, every
display value falls back to its default (`0`, the em-dash, `unknown`)
instead of failing. -/
theorem c7_render_defaults (r : ResultPayload) (c : Contributor)
    (h1 : r.codebase_health = none)
    (h2 : c.expertise_level = none)
    (h3 : c.bus_factor_risk = none)
    (h4 : c.files_contributed = none) :
    displayTotalFiles r = 0 ∧
    displayTotalCommits r = 0 ∧
    displayActiveContributors r = 0 ∧
    displayBusFactor r = "—" ∧
    displayExpertise c = "unknown" ∧
    displayRiskBadge c = none ∧
    displayModalExpertise c = "Unknown" ∧
    displayModalRisk c = "Unknown" ∧
    displayFilesCount c = 0 ∧
    displayedHotSpots r = [] ∧
    displayedFiles c = [] ∧
    moreFilesNote c = none := by
  have hcap : ("Unknown" : String).capitalize = "Unknown" := by decide
  refine ⟨?_, ?_, ?_, ?_, ?_, ?_, ?_, ?_, ?_, ?_, ?_, ?_⟩ <;>
    simp [displayTotalFiles, displayTotalCommits, displayActiveContributors,
          displayBusFactor, displayExpertise, displayRiskBadge,
          displayModalExpertise, displayModalRisk, displayFilesCount,
          displayedHotSpots, displayedFiles, moreFilesNote,
          jsOrNat, jsOrString, h1, h2, h3, h4, hcap]

/-- Witness for C7: the fully bare result payload and contributor. -/
theorem c7_witness :
    displayTotalFiles bareResult = 0 ∧
    displayTotalCommits bareResult = 0 ∧
    displayActiveContributors bareResult = 0 ∧
    displayBusFactor bareResult = "—" ∧
    displayExpertise bareContributor = "unknown" ∧
    displayRiskBadge bareContributor = none ∧
    displayModalExpertise bareContributor = "Unknown" ∧
    displayModalRisk bareContributor = "Unknown" ∧
    displayFilesCount bareContributor = 0 ∧
    displayedHotSpots bareResult = [] ∧
    displayedFiles bareContributor = [] ∧
    moreFilesNote bareContributor = none :=
  c7_render_defaults bareResult bareContributor rfl rfl rfl rfl

/-- C10: display truncation — the page renders at most the first 5 hot
spots, the first 5 recommendations, and the first 10 contributed files, and
the contributor modal shows the `+N more files` note exactly when the list
is longer than 10, with `N` the number of hidden files. -/
theorem c10_display_truncation :
    (∀ (r : ResultPayload) (h : CodebaseHealth) (l : List String),
        r.codebase_health = some h → h.hot_spots = some l →
        displayedHotSpots r = l.take 5) ∧
    (∀ (r : ResultPayload) (l : List String),
        r.recommendations = some l → displayedRecommendations r = l.take 5) ∧
    (∀ (c : Contributor) (l : List FileContribution),
        c.files_contributed = some l →
        displayedFiles c = l.take 10 ∧
        moreFilesNote c = (if 10 < l.length then some (l.length - 10) else none)) ∧
    (∀ r : ResultPayload, (displayedHotSpots r).length ≤ 5) ∧
    (∀ r : ResultPayload, (displayedRecommendations r).length ≤ 5) ∧
    (∀ c : Contributor, (displayedFiles c).length ≤ 10) := by
  have hspots : ∀ (r : ResultPayload) (h : CodebaseHealth) (l : List String),
      r.codebase_health = some h → h.hot_spots = some l →
      displayedHotSpots r = l.take 5 := by
    intro r h l hr hh
    cases l with
    | nil => simp [displayedHotSpots, hr, hh]
    | cons x xs => simp [displayedHotSpots, hr, hh]
  have hrecs : ∀ (r : ResultPayload) (l : List String),
      r.recommendations = some l → displayedRecommendations r = l.take 5 := by
    intro r l hr
    cases l with
    | nil => simp [displayedRecommendations, hr]
    | cons x xs => simp [displayedRecommendations, hr]
  have hfiles : ∀ (c : Contributor) (l : List FileContribution),
      c.files_contributed = some l →
      displayedFiles c = l.take 10 ∧
      moreFilesNote c = (if 10 < l.length then some (l.length - 10) else none) := by
    intro c l hc
    cases l with
    | nil => simp [displayedFiles, moreFilesNote, hc]
    | cons x xs => simp [displayedFiles, moreFilesNote, hc, Nat.lt_iff_add_one_le]
  refine ⟨hspots, hrecs, hfiles, ?_, ?_, ?_⟩
  · intro r
    cases hr : r.codebase_health.bind (fun h => h.hot_spots) with
    | none => simp [displayedHotSpots, hr]
    | some l =>
        by_cases hl : l.length > 0 <;>
          simp [displayedHotSpots, hr, hl, List.length_take]
  · intro r
    cases hr : r.recommendations with
    | none => simp [displayedRecommendations, hr]
    | some l =>
        by_cases hl : l.length > 0 <;>
          simp [displayedRecommendations, hr, hl, List.length_take]
  · intro c
    cases hc : c.files_contributed with
    | none => simp [displayedFiles, hc]
    | some l =>
        by_cases hl : l.length > 0 <;>
          simp [displayedFiles, hc, hl, List.length_take]

/-- Witness for C10: the six-element sample lists and the twelve-file
contributor — five hot spots, five recommendations, ten files, and a
`+2 more files` note. -/
theorem c10_witness :
    displayedHotSpots sampleResult = ["a.ts", "b.ts", "c.ts", "d.ts", "e.ts"] ∧
    displayedRecommendations sampleResult = ["r1", "r2", "r3", "r4", "r5"] ∧
    displayedFiles busyContributor = ((List.range 12).map mkFile).take 10 ∧
    moreFilesNote busyContributor = some 2 := by
  obtain ⟨hspots, hrecs, hfiles, _, _, _⟩ := c10_display_truncation
  have h1 := hspots sampleResult sampleHealth
    ["a.ts", "b.ts", "c.ts", "d.ts", "e.ts", "f.ts"] rfl rfl
  have h2 := hrecs sampleResult ["r1", "r2", "r3", "r4", "r5", "r6"] rfl
  have h3 := hfiles busyContributor ((List.range 12).map mkFile) rfl
  refine ⟨by simpa using h1, by simpa using h2, h3.1, ?_⟩
  rw [h3.2]
  simp

/-- A job that has been started on workspace 7. -/
def startedJobSample : AnalysisJob :=
  { mkJob 7 1 with status := .processing, current_step := some .extracting,
                   startedAt := some 5 }

/-- The started job after completion with `sampleResult` attached. -/
def completedJobSample : AnalysisJob :=
  { startedJobSample with status := .completed, result := some sampleResult,
                          progress := 100, completedAt := some 9 }

/-- C4: in every reachable job state — hence in every status-polling payload
— a non-null `result` is only present once `status` is `completed`; no
reachable payload carries a result while the status is still `queued`,
`processing`, or `failed`. -/
theorem c4_result_only_when_completed (ws jobId : Nat) (j : AnalysisJob)
    (h : JobReachable ws jobId j) (hr : (pollPayload j).result.isSome = true) :
    (pollPayload j).status = .completed := by
  have main : ∀ k : AnalysisJob, JobReachable ws jobId k →
      k.result.isSome = true → k.status = .completed := by
    intro k hk
    induction hk with
    | refl =>
        intro hres
        simp [mkJob] at hres
    | tail hsteps hstep ih =>
        intro hres
        cases hstep with
        | start t hq =>
            have hcomp := ih (by simpa using hres)
            have himp : JobStatus.queued = JobStatus.completed := hq.symm.trans hcomp
            simp at himp
        | advance s1 s2 hpr hs hn =>
            have hcomp := ih (by simpa using hres)
            have himp : JobStatus.processing = JobStatus.completed := hpr.symm.trans hcomp
            simp at himp
        | fail msg hpr =>
            have hcomp := ih (by simpa using hres)
            have himp : JobStatus.processing = JobStatus.completed := hpr.symm.trans hcomp
            simp at himp
        | complete res t hpr =>
            rfl
  simpa [pollPayload] using main j h (by simpa [pollPayload] using hr)

/-- Witness for C4: a concrete submitted-started-completed job whose payload
carries `sampleResult` and reports `completed`. -/
theorem c4_witness : (pollPayload completedJobSample).status = .completed :=
  c4_result_only_when_completed 7 1 completedJobSample
    (Relation.ReflTransGen.tail
      (Relation.ReflTransGen.tail Relation.ReflTransGen.refl
        (JobStep.start (mkJob 7 1) 5 rfl))
      (JobStep.complete startedJobSample sampleResult 9 rfl))
    rfl

/-- C5: whatever the downstream pipeline computes, a job over an empty
commit history completes (is not failed) with the zero-valued result:
`total_files = 0`, `total_commits = 0`, a sentinel (absent) `bus_factor`,
and an empty contributor list; the Extractor reports the empty history as
the distinct `EmptyHistoryError`. -/
theorem c5_empty_history_completes :
    ∀ pipeline : List CommitDiff → ResultPayload,
      runJob pipeline { reachable := true, commits := [] }
        = .completedJob emptyHistoryResult ∧
      extractHistory { reachable := true, commits := [] }
        = .error .emptyHistoryError ∧
      emptyHistoryResult.codebase_health = some emptyHistoryHealth ∧
      emptyHistoryHealth.total_files = some 0 ∧
      emptyHistoryHealth.total_commits = some 0 ∧
      emptyHistoryHealth.active_contributors = some 0 ∧
      emptyHistoryHealth.bus_factor = none ∧
      emptyHistoryResult.contributors = some ([] : List Contributor) := by
  intro pipeline
  exact ⟨rfl, rfl, rfl, rfl, rfl, rfl, rfl, rfl⟩

/-- Witness for C5 with a concrete pipeline function. -/
theorem c5_witness :
    runJob (fun _ => emptyHistoryResult) { reachable := true, commits := [] }
      = .completedJob emptyHistoryResult :=
  (c5_empty_history_completes (fun _ => emptyHistoryResult)).1

/-- C6: the registry keeps at most one non-terminal job per workspace — a
submission while a non-terminal (`queued`/`processing`) job exists for the
same workspace is rejected rather than queued as a second job, a successful
submission preserves the at-most-one-active invariant, and no orchestrator
transition ever re-activates a terminal job. -/
theorem c6_single_active_job :
    (∀ (reg : Registry) (ws : Nat), hasActiveJob reg ws = true →
        submit reg ws = .error .activeJobExists) ∧
    (∀ (reg reg' : Registry) (ws jobId : Nat),
        atMostOneActive reg → submit reg ws = .ok (reg', jobId) →
        atMostOneActive reg') ∧
    (∀ j j' : AnalysisJob, JobStep j j' → isActiveJob j' = true → isActiveJob j = true) := by
  refine ⟨?_, ?_, ?_⟩
  · intro reg ws h
    simp [submit, h]
  · intro reg reg' ws jobId hinv hsub
    have hact : hasActiveJob reg ws = false := by
      cases h : hasActiveJob reg ws with
      | false => rfl
      | true => simp [submit, h] at hsub
    rw [submit, hact] at hsub
    simp only [Bool.false_eq_true, if_false, Except.ok.injEq, Prod.mk.injEq] at hsub
    obtain ⟨hreg, hjob⟩ := hsub
    subst hreg
    intro ws'
    show ((mkJob ws reg.nextId :: reg.jobs).countP
        fun j => j.workspaceId == ws' && isActiveJob j) ≤ 1
    by_cases hws : ws = ws'
    · subst hws
      have hpa : ((mkJob ws reg.nextId).workspaceId == ws
          && isActiveJob (mkJob ws reg.nextId)) = true := by
        simp [mkJob, isActiveJob]
        decide
      rw [List.countP_cons_of_pos
        (fun j => j.workspaceId == ws && isActiveJob j) reg.jobs hpa]
      have hzero : (List.countP (fun j => j.workspaceId == ws && isActiveJob j)
          reg.jobs) = 0 := by
        rw [List.countP_eq_zero]
        intro j hj hpj
        have hany : hasActiveJob reg ws = true := by
          rw [hasActiveJob, List.any_eq_true]
          exact ⟨j, hj, hpj⟩
        rw [hany] at hact
        cases hact
      rw [hzero]
    · have hpa : ¬((mkJob ws reg.nextId).workspaceId == ws'
          && isActiveJob (mkJob ws reg.nextId)) = true := by
        simp [mkJob, isActiveJob]
        intro h
        exact absurd h hws
      rw [List.countP_cons_of_neg
        (fun j => j.workspaceId == ws' && isActiveJob j) reg.jobs hpa]
      simpa using hinv ws'
  · intro j j' hstep hact
    cases hstep <;> simp [isActiveJob, *] <;> decide

/-- Witness for C6: re-submitting workspace 7 while `regSample` holds its
`processing` job is rejected. -/
theorem c6_witness : submit regSample 7 = .error .activeJobExists :=
  c6_single_active_job.1 regSample 7 rfl
